import Mathlib

/-!
Shallow embedding of the ISA allowance engine of this repository
(`src/service/isa_allowance.py` together with `src/schema/isa_allowance.py`).

Python `Decimal` values are modelled as rationals (the arithmetic used —
addition, subtraction, `min`, `max`, `abs`, comparisons — is exact on
`Decimal` and agrees with `ℚ`).  Python `datetime.date` values are modelled
as year/month/day triples compared lexicographically, which is how valid
dates compare in Python.  Python exceptions are modelled with `Except`.
The in-place stable sort `list.sort(key=lambda t: t.transaction_date)` is
modelled by insertion sort with the date-`le` relation, which is stable in
the same sense and therefore produces the same list.
-/

structure PyDate where
  year : Int
  month : Int
  day : Int
deriving DecidableEq

def PyDate.lt (a b : PyDate) : Prop :=
  a.year < b.year ∨
    (a.year = b.year ∧ (a.month < b.month ∨ (a.month = b.month ∧ a.day < b.day)))

instance (a b : PyDate) : Decidable (PyDate.lt a b) := by
  unfold PyDate.lt; infer_instance

def PyDate.le (a b : PyDate) : Prop := PyDate.lt a b ∨ a = b

instance (a b : PyDate) : Decidable (PyDate.le a b) := by
  unfold PyDate.le; infer_instance

/-- `AccountType` enum from `src/schema/isa_allowance.py` (`ISA` is the
non-flexible / Standard category). -/
inductive AccountType where
  | ISA
  | Flexible_ISA
  | Flexible_Lifetime_ISA
deriving DecidableEq

structure Account where
  id : Int
  client_id : Int
  account_type : AccountType
deriving DecidableEq

structure Transaction where
  account : Account
  transaction_date : PyDate
  amount : ℚ
deriving DecidableEq

structure IsaAllowance where
  annual_allowance : ℚ
  remaining_allowance : ℚ
deriving DecidableEq

/-- The exceptions the engine can raise: `NegativeBalanceError(balance)` and
the `NotImplementedError` for a tax year absent from the limit table. -/
inductive IsaError where
  | negativeBalance (balance : ℚ)
  | unsupportedTaxYear (tax_year : Int)
deriving DecidableEq

/-- The 2024 limit mapping returned by `get_isa_limits_for_tax_year`. -/
def isaLimits2024 : AccountType → ℚ
  | .Flexible_ISA => 20000
  | .ISA => 20000
  | .Flexible_Lifetime_ISA => 4000

/-- `get_isa_limits_for_tax_year`: only 2024 is defined; any other year
raises `NotImplementedError`. -/
def get_isa_limits_for_tax_year (tax_year : Int) : Except IsaError (AccountType → ℚ) :=
  if tax_year = 2024 then .ok isaLimits2024
  else .error (.unsupportedTaxYear tax_year)

/-- The mutable fields of `IsaAllowanceCalculator` (all three subclasses share
this state shape; `INITIAL_LIFETIME_ALLOWANCE` is set in `__init__` and never
reassigned). -/
structure CalcState where
  total_contributions : ℚ
  flexible_contributions : ℚ
  annual_isa_allowance : ℚ
  INITIAL_LIFETIME_ALLOWANCE : ℚ
  remaining_lifetime_isa_allowance : ℚ
  balance : ℚ
deriving DecidableEq

/-- `IsaAllowanceCalculator.__init__(isa_limit_mappings)`. -/
def CalcState.init (isa_limit_mappings : AccountType → ℚ) : CalcState where
  total_contributions := 0
  flexible_contributions := 0
  annual_isa_allowance := isa_limit_mappings .ISA
  INITIAL_LIFETIME_ALLOWANCE := isa_limit_mappings .Flexible_Lifetime_ISA
  remaining_lifetime_isa_allowance := isa_limit_mappings .Flexible_Lifetime_ISA
  balance := 0

/-- `NonFlexibleIsaCalculator.update_contributions`. -/
def NonFlexibleIsaCalculator.update_contributions (s : CalcState) (t : Transaction) :
    CalcState :=
  if t.amount > 0 then
    { s with total_contributions := s.total_contributions + t.amount }
  else s

/-- `FlexibleIsaCalculator.update_contributions`. -/
def FlexibleIsaCalculator.update_contributions (s : CalcState) (t : Transaction) :
    CalcState :=
  let s1 := { s with total_contributions := s.total_contributions + t.amount }
  if t.amount > 0 then
    { s1 with flexible_contributions := s1.flexible_contributions + t.amount }
  else s1

/-- `FlexibleLifetimeIsaCalculator.update_contributions`.  Note that the
withdrawal branch reads `self.balance`, which at this point still holds the
balance from *before* the current transaction (the caller updates `balance`
only after `update_contributions` returns). -/
def FlexibleLifetimeIsaCalculator.update_contributions (s : CalcState) (t : Transaction) :
    CalcState :=
  let amount := t.amount
  let s1 := { s with flexible_contributions := s.flexible_contributions + amount }
  if amount > 0 then
    let allowed := min t.amount s1.remaining_lifetime_isa_allowance
    { s1 with
      remaining_lifetime_isa_allowance := s1.remaining_lifetime_isa_allowance - allowed
      total_contributions := s1.total_contributions + allowed }
  else
    let non_tax_free_amount := max 0 (s1.balance - s1.INITIAL_LIFETIME_ALLOWANCE)
    let restored :=
      min |amount| (s1.INITIAL_LIFETIME_ALLOWANCE - s1.remaining_lifetime_isa_allowance)
        - non_tax_free_amount
    { s1 with
      remaining_lifetime_isa_allowance := s1.remaining_lifetime_isa_allowance + restored
      total_contributions := s1.total_contributions - restored }

/-- Dispatch of `update_contributions` over the concrete calculator classes,
exactly as `ISA_CALCULATOR_DISPATCHER` maps account types to classes. -/
def update_contributions (account_type : AccountType) (s : CalcState) (t : Transaction) :
    CalcState :=
  match account_type with
  | .ISA => NonFlexibleIsaCalculator.update_contributions s t
  | .Flexible_ISA => FlexibleIsaCalculator.update_contributions s t
  | .Flexible_Lifetime_ISA => FlexibleLifetimeIsaCalculator.update_contributions s t

/-- `IsaAllowanceCalculator.process_transaction`: negative-balance check
first, then `update_contributions`, then `balance += invested_amount`. -/
def process_transaction (account_type : AccountType) (s : CalcState) (t : Transaction) :
    Except IsaError CalcState :=
  if s.balance + t.amount < 0 then
    .error (.negativeBalance (s.balance + t.amount))
  else
    let s1 := update_contributions account_type s t
    .ok { s1 with balance := s1.balance + t.amount }

/-- One calculator fed a list of transactions in order (used to state
per-calculator properties). -/
def runCalc (account_type : AccountType) (s : CalcState) :
    List Transaction → Except IsaError CalcState
  | [] => .ok s
  | t :: ts =>
    match process_transaction account_type s t with
    | .error e => .error e
    | .ok s1 => runCalc account_type s1 ts

/-- The `calculators` dict of the orchestrator, keyed by account type. -/
def Calculators := AccountType → Option CalcState

/-- One loop iteration of the orchestrator: lazily create the calculator for
the transaction's account type, then `process_transaction`. -/
def orchestratorStep (isa_limits : AccountType → ℚ) (calcs : Calculators)
    (t : Transaction) : Except IsaError Calculators :=
  let account_type := t.account.account_type
  let s := (calcs account_type).getD (CalcState.init isa_limits)
  match process_transaction account_type s t with
  | .error e => .error e
  | .ok s1 => .ok fun c => if c = account_type then some s1 else calcs c

/-- The orchestrator's `for transaction in client_transactions` loop. -/
def processAll (isa_limits : AccountType → ℚ) (calcs : Calculators) :
    List Transaction → Except IsaError Calculators
  | [] => .ok calcs
  | t :: ts =>
    match orchestratorStep isa_limits calcs t with
    | .error e => .error e
    | .ok calcs1 => processAll isa_limits calcs1 ts

def optTotal : Option CalcState → ℚ
  | none => 0
  | some s => s.total_contributions

/-- `sum(calc.total_contributions for calc in calculators.values())`
(addition on `ℚ` is commutative, so enumerating the three possible keys is
faithful to summing the dict's values; absent keys contribute `0`). -/
def totalContributions (calcs : Calculators) : ℚ :=
  optTotal (calcs .ISA) + optTotal (calcs .Flexible_ISA)
    + optTotal (calcs .Flexible_Lifetime_ISA)

/-- `date(tax_year, 4, 6)`. -/
def TAX_YEAR_START_DATE (tax_year : Int) : PyDate := ⟨tax_year, 4, 6⟩

/-- `date(tax_year + 1, 4, 5)`. -/
def TAX_YEAR_END_DATE (tax_year : Int) : PyDate := ⟨tax_year + 1, 4, 5⟩

/-- `filter_transactions_by_tax_year_and_client_id`: the list comprehension
keeping transactions strictly inside the window and owned by the client. -/
def filter_transactions_by_tax_year_and_client_id (client_id : Int)
    (transactions : List Transaction) (TY_START_DATE TY_END_DATE : PyDate) :
    List Transaction :=
  transactions.filter fun txn =>
    decide (PyDate.lt TY_START_DATE txn.transaction_date ∧
      PyDate.lt txn.transaction_date TY_END_DATE ∧
      txn.account.client_id = client_id)

/-- Date comparison lifted to transactions: the key relation of
`client_transactions.sort(key=lambda t: t.transaction_date)`. -/
def txnDateLe (a b : Transaction) : Prop :=
  PyDate.le a.transaction_date b.transaction_date

instance : DecidableRel txnDateLe := fun a b => by
  unfold txnDateLe; infer_instance

/-- The orchestrator's filter-then-stable-sort of lines 29–30: the list
comprehension followed by `client_transactions.sort(key=lambda t:
t.transaction_date)`. -/
def clientTransactionsSorted (client_id : Int) (transactions : List Transaction)
    (tax_year : Int) : List Transaction :=
  List.insertionSort txnDateLe
    (filter_transactions_by_tax_year_and_client_id client_id transactions
      (TAX_YEAR_START_DATE tax_year) (TAX_YEAR_END_DATE tax_year))

/-- `calculate_isa_allowance_for_account`: the main entrypoint. -/
def calculate_isa_allowance_for_account (client_id : Int)
    (transactions : List Transaction) (tax_year : Int := 2024) :
    Except IsaError IsaAllowance :=
  match get_isa_limits_for_tax_year tax_year with
  | .error e => .error e
  | .ok isa_limits =>
    let annual_isa_allowance := isa_limits .ISA
    match processAll isa_limits (fun _ => none)
        (clientTransactionsSorted client_id transactions tax_year) with
    | .error e => .error e
    | .ok calcs =>
      .ok { annual_allowance := annual_isa_allowance
            remaining_allowance :=
              max 0 (annual_isa_allowance - totalContributions calcs) }

/-- Strict date comparison lifted to transactions (used to reason about
sortedness when all dates are distinct). -/
def txnDateLt (a b : Transaction) : Prop :=
  PyDate.lt a.transaction_date b.transaction_date

instance : DecidableRel txnDateLt := fun a b => by
  unfold txnDateLt; infer_instance

/-- The transactions of `l` carrying exactly the date `d`, in order (used to
state stability of the sort). -/
def sameDateFilter (d : PyDate) (l : List Transaction) : List Transaction :=
  l.filter fun t => decide (t.transaction_date = d)

/-- Two transactions that agree on every field the engine reads: owning
client, account category, date and amount (they may differ in `account.id`). -/
def SameView (a b : Transaction) : Prop :=
  a.account.client_id = b.account.client_id ∧
    a.account.account_type = b.account.account_type ∧
    a.transaction_date = b.transaction_date ∧
    a.amount = b.amount

/-- Invariant of a calculator state, by category: the Standard total is
nonnegative; the Flexible total equals the balance; the Lifetime total equals
the consumed part of the sub-allowance, which never exceeds its cap. -/
def CalcInv : AccountType → CalcState → Prop
  | .ISA, s => 0 ≤ s.total_contributions
  | .Flexible_ISA, s => s.total_contributions = s.balance ∧ 0 ≤ s.balance
  | .Flexible_Lifetime_ISA, s =>
      s.total_contributions =
          s.INITIAL_LIFETIME_ALLOWANCE - s.remaining_lifetime_isa_allowance ∧
        0 ≤ s.INITIAL_LIFETIME_ALLOWANCE ∧
        s.remaining_lifetime_isa_allowance ≤ s.INITIAL_LIFETIME_ALLOWANCE

/-! Concrete data for the reference scenarios. -/

def stdAccount : Account := ⟨1, 1, .ISA⟩
def flexAccount : Account := ⟨2, 1, .Flexible_ISA⟩
def lisaAccount : Account := ⟨3, 1, .Flexible_Lifetime_ISA⟩
def may5 : PyDate := ⟨2024, 5, 5⟩
def may6 : PyDate := ⟨2024, 5, 6⟩

/-- Scenario A: one contribution of 21,000 to a Standard account. -/
def scenarioA : List Transaction := [⟨stdAccount, may5, 21000⟩]

/-- Scenario B: Flexible account, +5,000, +10,000, −10,000 on the same day. -/
def scenarioB : List Transaction :=
  [⟨flexAccount, may5, 5000⟩, ⟨flexAccount, may5, 10000⟩, ⟨flexAccount, may5, -10000⟩]

/-- Scenario C: Standard account, +5,000 then −10,000. -/
def scenarioC : List Transaction :=
  [⟨stdAccount, may5, 5000⟩, ⟨stdAccount, may6, -10000⟩]

/-- Scenario D: Lifetime account, +5,500 then −2,000. -/
def scenarioD : List Transaction :=
  [⟨lisaAccount, may5, 5500⟩, ⟨lisaAccount, may6, -2000⟩]

/-- A Lifetime run whose withdrawal happens while the balance sits far above
the sub-allowance cap: +10,000 then −2,000. -/
def overCapRun : List Transaction :=
  [⟨lisaAccount, may5, 10000⟩, ⟨lisaAccount, may6, -2000⟩]

/-- A same-day withdrawal/contribution pair on a Standard account. -/
def tieWithdraw : Transaction := ⟨stdAccount, may5, -100⟩
def tieContribute : Transaction := ⟨stdAccount, may5, 100⟩

def accountA7 : Account := ⟨1, 7, .ISA⟩
def accountB7 : Account := ⟨2, 7, .ISA⟩

/-- Client 7 contributes 5,000 from one Standard account, then withdraws
3,000 from a *different* Standard account that never received a deposit. -/
def crossAccountTxns : List Transaction :=
  [⟨accountA7, may5, 5000⟩, ⟨accountB7, may6, -3000⟩]

/-- All live calculator states satisfy their category invariant
(`CalcInv`). -/
def CalcsInv (calcs : Calculators) : Prop :=
  ∀ cat s, calcs cat = some s → CalcInv cat s

instance : IsTotal Transaction txnDateLe :=
  ⟨fun a b => by
    obtain ⟨a1, ⟨y1, m1, e1⟩, q1⟩ := a
    obtain ⟨a2, ⟨y2, m2, e2⟩, q2⟩ := b
    simp only [txnDateLe, PyDate.le, PyDate.lt, PyDate.mk.injEq]
    omega⟩

instance : IsTrans Transaction txnDateLe :=
  ⟨fun a b c => by
    obtain ⟨a1, ⟨y1, m1, e1⟩, q1⟩ := a
    obtain ⟨a2, ⟨y2, m2, e2⟩, q2⟩ := b
    obtain ⟨a3, ⟨y3, m3, e3⟩, q3⟩ := c
    simp only [txnDateLe, PyDate.le, PyDate.lt, PyDate.mk.injEq]
    omega⟩

instance : IsAntisymm Transaction txnDateLt :=
  ⟨fun a b h1 h2 => by
    exfalso
    obtain ⟨a1, ⟨y1, m1, e1⟩, q1⟩ := a
    obtain ⟨a2, ⟨y2, m2, e2⟩, q2⟩ := b
    simp only [txnDateLt, PyDate.lt] at h1 h2
    omega⟩

/-! Order lemmas for `PyDate` and the transaction relations. -/

theorem PyDate.le_total_dates (a b : PyDate) : PyDate.le a b ∨ PyDate.le b a := by
  obtain ⟨y1, m1, e1⟩ := a
  obtain ⟨y2, m2, e2⟩ := b
  simp only [PyDate.le, PyDate.lt, PyDate.mk.injEq]
  omega

theorem PyDate.le_trans_dates (a b c : PyDate) :
    PyDate.le a b → PyDate.le b c → PyDate.le a c := by
  obtain ⟨y1, m1, e1⟩ := a
  obtain ⟨y2, m2, e2⟩ := b
  obtain ⟨y3, m3, e3⟩ := c
  simp only [PyDate.le, PyDate.lt, PyDate.mk.injEq]
  omega

theorem PyDate.lt_asymm_dates (a b : PyDate) : PyDate.lt a b → ¬ PyDate.lt b a := by
  obtain ⟨y1, m1, e1⟩ := a
  obtain ⟨y2, m2, e2⟩ := b
  simp only [PyDate.lt]
  omega

theorem PyDate.lt_of_not_le (a b : PyDate) : ¬ PyDate.le a b → PyDate.lt b a := by
  obtain ⟨y1, m1, e1⟩ := a
  obtain ⟨y2, m2, e2⟩ := b
  simp only [PyDate.le, PyDate.lt, PyDate.mk.injEq]
  omega

theorem PyDate.ne_of_lt (a b : PyDate) : PyDate.lt a b → a ≠ b := by
  obtain ⟨y1, m1, e1⟩ := a
  obtain ⟨y2, m2, e2⟩ := b
  simp only [PyDate.lt, ne_eq, PyDate.mk.injEq]
  omega

theorem PyDate.lt_of_le_of_ne (a b : PyDate) :
    PyDate.le a b → a ≠ b → PyDate.lt a b := fun h hne => h.resolve_right hne

/-- Claim C9: on the Standard (non-flexible) calculator, a transaction with
positive amount adds exactly that amount to `total_contributions`, while a
non-positive amount leaves `total_contributions` (and every field other than
`balance`) unchanged — a withdrawal only reduces the balance.  Consequently
Scenario A (one contribution of 21,000 against the 20,000 cap) yields
`remaining_allowance = 0`. -/
theorem standard_calculator_positive_only (s : CalcState) (t : Transaction)
    (h : 0 ≤ s.balance + t.amount) :
    (0 < t.amount →
        process_transaction .ISA s t =
          .ok { s with
                total_contributions := s.total_contributions + t.amount
                balance := s.balance + t.amount }) ∧
    (t.amount ≤ 0 →
        process_transaction .ISA s t = .ok { s with balance := s.balance + t.amount }) ∧
    calculate_isa_allowance_for_account 1 scenarioA 2024 = .ok ⟨20000, 0⟩ := by
  refine ⟨fun hpos => ?_, fun hnp => ?_, ?_⟩
  · simp [process_transaction, update_contributions,
      NonFlexibleIsaCalculator.update_contributions, not_lt.mpr h, hpos]
  · simp [process_transaction, update_contributions,
      NonFlexibleIsaCalculator.update_contributions, not_lt.mpr h, not_lt.mpr hnp]
  · norm_num +decide [calculate_isa_allowance_for_account, get_isa_limits_for_tax_year,
      clientTransactionsSorted, filter_transactions_by_tax_year_and_client_id,
      TAX_YEAR_START_DATE, TAX_YEAR_END_DATE, PyDate.lt, List.insertionSort,
      List.orderedInsert, txnDateLe, PyDate.le, processAll, orchestratorStep,
      process_transaction, update_contributions,
      NonFlexibleIsaCalculator.update_contributions, CalcState.init, isaLimits2024,
      totalContributions, optTotal, scenarioA, stdAccount, may5]

/-- Claim C8: the Flexible calculator adds every signed amount directly to
`total_contributions` (so a withdrawal restores allowance).  Consequently
Scenario B (Flexible account: +5,000, +10,000, −10,000 on the same day)
yields `remaining_allowance = 15,000`. -/
theorem flexible_calculator_signed_amounts (s : CalcState) (t : Transaction)
    (h : 0 ≤ s.balance + t.amount) :
    Except.map CalcState.total_contributions (process_transaction .Flexible_ISA s t) =
        .ok (s.total_contributions + t.amount) ∧
    calculate_isa_allowance_for_account 1 scenarioB 2024 = .ok ⟨20000, 15000⟩ := by
  constructor
  · by_cases hpos : t.amount > 0 <;>
      simp [process_transaction, update_contributions,
        FlexibleIsaCalculator.update_contributions, not_lt.mpr h, hpos, Except.map]
  · norm_num +decide [calculate_isa_allowance_for_account, get_isa_limits_for_tax_year,
      clientTransactionsSorted, filter_transactions_by_tax_year_and_client_id,
      TAX_YEAR_START_DATE, TAX_YEAR_END_DATE, PyDate.lt, List.insertionSort,
      List.orderedInsert, txnDateLe, PyDate.le, processAll, orchestratorStep,
      process_transaction, update_contributions,
      FlexibleIsaCalculator.update_contributions, CalcState.init, isaLimits2024,
      totalContributions, optTotal, scenarioB, flexAccount, may5]

/-- Claim C1: the Flexible-Lifetime calculator updates its state exactly as
the spec rule says: for `amount > 0` the amount counted toward
`total_contributions` is `min(amount, remaining)` and `remaining` decreases
by that clamped amount; for `amount < 0`,
`restored = min(|amount|, cap − remaining) − max(0, balance − cap)` computed
with the pre-transaction balance, `remaining` increases by `restored` and
`total_contributions` decreases by `restored`.  Consequently Scenario D
(contribute 5,500 against the 4,000 sub-cap, then withdraw 2,000) yields
`remaining_allowance = 16,500` against the 20,000 overall cap. -/
theorem lifetime_calculator_update_rule (s : CalcState) (t : Transaction)
    (h : 0 ≤ s.balance + t.amount) :
    (0 < t.amount →
        process_transaction .Flexible_Lifetime_ISA s t =
          .ok { s with
                flexible_contributions := s.flexible_contributions + t.amount
                total_contributions := s.total_contributions +
                  min t.amount s.remaining_lifetime_isa_allowance
                remaining_lifetime_isa_allowance := s.remaining_lifetime_isa_allowance -
                  min t.amount s.remaining_lifetime_isa_allowance
                balance := s.balance + t.amount }) ∧
    (t.amount < 0 →
        process_transaction .Flexible_Lifetime_ISA s t =
          .ok { s with
                flexible_contributions := s.flexible_contributions + t.amount
                total_contributions := s.total_contributions -
                  (min |t.amount| (s.INITIAL_LIFETIME_ALLOWANCE -
                      s.remaining_lifetime_isa_allowance) -
                    max 0 (s.balance - s.INITIAL_LIFETIME_ALLOWANCE))
                remaining_lifetime_isa_allowance := s.remaining_lifetime_isa_allowance +
                  (min |t.amount| (s.INITIAL_LIFETIME_ALLOWANCE -
                      s.remaining_lifetime_isa_allowance) -
                    max 0 (s.balance - s.INITIAL_LIFETIME_ALLOWANCE))
                balance := s.balance + t.amount }) ∧
    calculate_isa_allowance_for_account 1 scenarioD 2024 = .ok ⟨20000, 16500⟩ := by
  refine ⟨fun hpos => ?_, fun hneg => ?_, ?_⟩
  · simp [process_transaction, update_contributions,
      FlexibleLifetimeIsaCalculator.update_contributions, not_lt.mpr h, hpos]
  · simp [process_transaction, update_contributions,
      FlexibleLifetimeIsaCalculator.update_contributions, not_lt.mpr h,
      not_lt.mpr hneg.le]
  · norm_num +decide [calculate_isa_allowance_for_account, get_isa_limits_for_tax_year,
      clientTransactionsSorted, filter_transactions_by_tax_year_and_client_id,
      TAX_YEAR_START_DATE, TAX_YEAR_END_DATE, PyDate.lt, List.insertionSort,
      List.orderedInsert, txnDateLe, PyDate.le, processAll, orchestratorStep,
      process_transaction, update_contributions,
      FlexibleLifetimeIsaCalculator.update_contributions, CalcState.init, isaLimits2024,
      totalContributions, optTotal, scenarioD, lisaAccount, may5, may6]

/-- Claim C5: for every calculator category, `process_transaction` raises
`NegativeBalanceError` carrying the attempted balance `balance + amount` if
and only if `balance + amount < 0`; every error it can raise is exactly that
one (the check runs before any contribution accounting, and in this pure
embedding an error returns no updated state, so the state is unchanged).
Inside `calculate` the error aborts the whole call: Scenario C (Standard
account, +5,000 then −10,000) returns exactly
`NegativeBalanceError(−5,000)` and no partial result. -/
theorem negative_balance_check_c5 (account_type : AccountType) (s : CalcState)
    (t : Transaction) :
    (process_transaction account_type s t =
        .error (.negativeBalance (s.balance + t.amount)) ↔
      s.balance + t.amount < 0) ∧
    (∀ e, process_transaction account_type s t = .error e →
        e = .negativeBalance (s.balance + t.amount) ∧ s.balance + t.amount < 0) ∧
    calculate_isa_allowance_for_account 1 scenarioC 2024 =
      .error (.negativeBalance (-5000)) := by
  refine ⟨?_, ?_, ?_⟩
  · unfold process_transaction
    by_cases hb : s.balance + t.amount < 0
    · simp [hb]
    · simp [hb]
  · intro e he
    unfold process_transaction at he
    by_cases hb : s.balance + t.amount < 0
    · rw [if_pos hb] at he
      simp only [Except.error.injEq] at he
      exact ⟨he.symm, hb⟩
    · rw [if_neg hb] at he
      cases he
  · norm_num +decide [calculate_isa_allowance_for_account, get_isa_limits_for_tax_year,
      clientTransactionsSorted, filter_transactions_by_tax_year_and_client_id,
      TAX_YEAR_START_DATE, TAX_YEAR_END_DATE, PyDate.lt, List.insertionSort,
      List.orderedInsert, txnDateLe, PyDate.le, processAll, orchestratorStep,
      process_transaction, update_contributions,
      NonFlexibleIsaCalculator.update_contributions, CalcState.init, isaLimits2024,
      totalContributions, optTotal, scenarioC, stdAccount, may5, may6]

/-- Claim C7: for every tax year other than 2024 — the single year in the
limit table — `calculate_isa_allowance_for_account` fails with the
unsupported-tax-year error for every client and transaction list (no
transaction is processed), and the error is exactly the one produced by the
limit-table lookup, propagated unchanged. -/
theorem unsupported_tax_year_rejected (client_id : Int)
    (transactions : List Transaction) (tax_year : Int) (h : tax_year ≠ 2024) :
    calculate_isa_allowance_for_account client_id transactions tax_year =
        .error (.unsupportedTaxYear tax_year) ∧
    get_isa_limits_for_tax_year tax_year = .error (.unsupportedTaxYear tax_year) := by
  have hl : get_isa_limits_for_tax_year tax_year =
      .error (.unsupportedTaxYear tax_year) := by
    simp [get_isa_limits_for_tax_year, h]
  exact ⟨by simp [calculate_isa_allowance_for_account, hl], hl⟩

theorem standard_calculator_positive_only_witness :
    process_transaction .ISA (CalcState.init isaLimits2024)
        ⟨stdAccount, may5, 21000⟩ =
      .ok { CalcState.init isaLimits2024 with
            total_contributions :=
              (CalcState.init isaLimits2024).total_contributions + 21000
            balance := (CalcState.init isaLimits2024).balance + 21000 } ∧
    calculate_isa_allowance_for_account 1 scenarioA 2024 = .ok ⟨20000, 0⟩ := by
  have H := standard_calculator_positive_only (CalcState.init isaLimits2024)
    ⟨stdAccount, may5, 21000⟩ (by norm_num [CalcState.init, isaLimits2024])
  exact ⟨H.1 (by norm_num), H.2.2⟩

theorem flexible_calculator_signed_amounts_witness :
    Except.map CalcState.total_contributions
        (process_transaction .Flexible_ISA (CalcState.init isaLimits2024)
          ⟨flexAccount, may5, 5000⟩) =
      .ok ((CalcState.init isaLimits2024).total_contributions + 5000) ∧
    calculate_isa_allowance_for_account 1 scenarioB 2024 = .ok ⟨20000, 15000⟩ :=
  flexible_calculator_signed_amounts (CalcState.init isaLimits2024)
    ⟨flexAccount, may5, 5000⟩ (by norm_num [CalcState.init, isaLimits2024])

theorem lifetime_calculator_update_rule_witness :
    process_transaction .Flexible_Lifetime_ISA (CalcState.init isaLimits2024)
        ⟨lisaAccount, may5, 5500⟩ =
      .ok { CalcState.init isaLimits2024 with
            flexible_contributions :=
              (CalcState.init isaLimits2024).flexible_contributions + 5500
            total_contributions := (CalcState.init isaLimits2024).total_contributions +
              min 5500 (CalcState.init isaLimits2024).remaining_lifetime_isa_allowance
            remaining_lifetime_isa_allowance :=
              (CalcState.init isaLimits2024).remaining_lifetime_isa_allowance -
                min 5500 (CalcState.init isaLimits2024).remaining_lifetime_isa_allowance
            balance := (CalcState.init isaLimits2024).balance + 5500 } ∧
    calculate_isa_allowance_for_account 1 scenarioD 2024 = .ok ⟨20000, 16500⟩ := by
  have H := lifetime_calculator_update_rule (CalcState.init isaLimits2024)
    ⟨lisaAccount, may5, 5500⟩ (by norm_num [CalcState.init, isaLimits2024])
  exact ⟨H.1 (by norm_num), H.2.2⟩

theorem negative_balance_check_c5_witness :
    ((IsaError.negativeBalance ((CalcState.init isaLimits2024).balance + (-100))) =
        .negativeBalance ((CalcState.init isaLimits2024).balance + (-100)) ∧
      (CalcState.init isaLimits2024).balance + (-100) < 0) ∧
    calculate_isa_allowance_for_account 1 scenarioC 2024 =
      .error (.negativeBalance (-5000)) := by
  have H := negative_balance_check_c5 .ISA (CalcState.init isaLimits2024)
    ⟨stdAccount, may5, -100⟩
  refine ⟨H.2.1 (.negativeBalance ((CalcState.init isaLimits2024).balance + (-100)))
    ?_, H.2.2⟩
  norm_num [process_transaction, CalcState.init, isaLimits2024]

theorem unsupported_tax_year_rejected_witness :
    calculate_isa_allowance_for_account 1 [] 2020 =
        .error (.unsupportedTaxYear 2020) ∧
    get_isa_limits_for_tax_year 2020 = .error (.unsupportedTaxYear 2020) :=
  unsupported_tax_year_rejected 1 [] 2020 (by decide)

theorem lifetime_update_upper (s : CalcState) (t : Transaction)
    (hcap : 0 ≤ s.INITIAL_LIFETIME_ALLOWANCE)
    (hrem : s.remaining_lifetime_isa_allowance ≤ s.INITIAL_LIFETIME_ALLOWANCE) :
    (FlexibleLifetimeIsaCalculator.update_contributions s t).INITIAL_LIFETIME_ALLOWANCE
        = s.INITIAL_LIFETIME_ALLOWANCE ∧
    (FlexibleLifetimeIsaCalculator.update_contributions s
        t).remaining_lifetime_isa_allowance ≤ s.INITIAL_LIFETIME_ALLOWANCE := by
  simp only [FlexibleLifetimeIsaCalculator.update_contributions]
  split_ifs with hpos
  · refine ⟨rfl, ?_⟩
    simp only
    rcases le_total t.amount s.remaining_lifetime_isa_allowance with hle | hle
    · rw [min_eq_left hle]; linarith
    · rw [min_eq_right hle]; linarith
  · refine ⟨rfl, ?_⟩
    simp only
    have h1 := min_le_right |t.amount|
      (s.INITIAL_LIFETIME_ALLOWANCE - s.remaining_lifetime_isa_allowance)
    have h2 := le_max_left (0 : ℚ) (s.balance - s.INITIAL_LIFETIME_ALLOWANCE)
    linarith

theorem lifetime_process_upper (s s1 : CalcState) (t : Transaction)
    (hcap : 0 ≤ s.INITIAL_LIFETIME_ALLOWANCE)
    (hrem : s.remaining_lifetime_isa_allowance ≤ s.INITIAL_LIFETIME_ALLOWANCE)
    (hp : process_transaction .Flexible_Lifetime_ISA s t = .ok s1) :
    0 ≤ s1.INITIAL_LIFETIME_ALLOWANCE ∧
    s1.remaining_lifetime_isa_allowance ≤ s1.INITIAL_LIFETIME_ALLOWANCE := by
  rw [process_transaction] at hp
  by_cases hb : s.balance + t.amount < 0
  · rw [if_pos hb] at hp; cases hp
  · rw [if_neg hb] at hp
    cases hp
    have h := lifetime_update_upper s t hcap hrem
    dsimp only [update_contributions]
    exact ⟨by rw [h.1]; exact hcap, by rw [h.1]; exact h.2⟩

theorem lifetime_runCalc_upper (l : List Transaction) (s s' : CalcState)
    (hcap : 0 ≤ s.INITIAL_LIFETIME_ALLOWANCE)
    (hrem : s.remaining_lifetime_isa_allowance ≤ s.INITIAL_LIFETIME_ALLOWANCE)
    (h : runCalc .Flexible_Lifetime_ISA s l = .ok s') :
    0 ≤ s'.INITIAL_LIFETIME_ALLOWANCE ∧
    s'.remaining_lifetime_isa_allowance ≤ s'.INITIAL_LIFETIME_ALLOWANCE := by
  induction l generalizing s with
  | nil =>
    simp only [runCalc, Except.ok.injEq] at h
    subst h
    exact ⟨hcap, hrem⟩
  | cons t ts ih =>
    unfold runCalc at h
    cases hp : process_transaction .Flexible_Lifetime_ISA s t with
    | error e => rw [hp] at h; cases h
    | ok s1 =>
      rw [hp] at h
      have hs1 := lifetime_process_upper s s1 t hcap hrem hp
      exact ih s1 hs1.1 hs1.2 h

/-- Claim C2, counterexample: the Flexible-Lifetime calculator started from
the 2024 limits and fed `+10,000` then `−2,000` (both passing the
negative-balance check, as the run returns `ok`) ends with
`remaining_lifetime_isa_allowance = −4,000 < 0`: the claimed lower bound
`0 ≤ remaining` is false. -/
theorem lifetime_suballowance_counterexample :
    Except.map CalcState.remaining_lifetime_isa_allowance
        (runCalc .Flexible_Lifetime_ISA (CalcState.init isaLimits2024) overCapRun) =
      .ok (-4000) ∧
    ¬ (0 : ℚ) ≤ (-4000 : ℚ) := by
  constructor
  · norm_num +decide [runCalc, process_transaction, update_contributions,
      FlexibleLifetimeIsaCalculator.update_contributions, CalcState.init, isaLimits2024,
      overCapRun, lisaAccount, may5, may6, Except.map]
  · norm_num

/-- Claim C2 (amended): for every sequence of transactions processed by a
Flexible-Lifetime calculator started from the 2024 limits (each passing the
negative-balance check), the remaining sub-allowance never exceeds the
initial sub-allowance cap: `remaining ≤ INITIAL_LIFETIME_ALLOWANCE`.  (The
quantification over all lists covers the state after every processed
transaction, since every prefix of an `ok` run is an `ok` run reaching that
state.)  The original lower bound `0 ≤ remaining` is refuted by the
counterexample. -/
theorem lifetime_suballowance_upper_bound (l : List Transaction) (s' : CalcState)
    (h : runCalc .Flexible_Lifetime_ISA (CalcState.init isaLimits2024) l = .ok s') :
    s'.remaining_lifetime_isa_allowance ≤ s'.INITIAL_LIFETIME_ALLOWANCE :=
  (lifetime_runCalc_upper l (CalcState.init isaLimits2024) s'
    (by norm_num [CalcState.init, isaLimits2024])
    (by norm_num [CalcState.init, isaLimits2024]) h).2

theorem lifetime_suballowance_upper_bound_witness :
    (⟨3500, 3500, 20000, 4000, 500, 3500⟩ : CalcState).remaining_lifetime_isa_allowance ≤
      (⟨3500, 3500, 20000, 4000, 500, 3500⟩ : CalcState).INITIAL_LIFETIME_ALLOWANCE :=
  lifetime_suballowance_upper_bound scenarioD _
    (by norm_num +decide [runCalc, process_transaction, update_contributions,
      FlexibleLifetimeIsaCalculator.update_contributions, CalcState.init, isaLimits2024,
      scenarioD, lisaAccount, may5, may6])


theorem calcInv_total_nonneg (cat : AccountType) (s : CalcState)
    (h : CalcInv cat s) : 0 ≤ s.total_contributions := by
  cases cat with
  | ISA => exact h
  | Flexible_ISA => exact h.1 ▸ h.2
  | Flexible_Lifetime_ISA =>
    obtain ⟨h1, h2, h3⟩ := h
    rw [h1]
    linarith

theorem calcInv_init : ∀ cat : AccountType, CalcInv cat (CalcState.init isaLimits2024) := by
  intro cat
  cases cat <;> norm_num [CalcInv, CalcState.init, isaLimits2024]

theorem calcInv_process (cat : AccountType) (s s1 : CalcState) (t : Transaction)
    (hinv : CalcInv cat s) (hp : process_transaction cat s t = .ok s1) :
    CalcInv cat s1 := by
  rw [process_transaction] at hp
  by_cases hb : s.balance + t.amount < 0
  · rw [if_pos hb] at hp; cases hp
  · rw [if_neg hb] at hp
    have hb2 := not_lt.mp hb
    cases hp
    cases cat with
    | ISA =>
      dsimp only [update_contributions, NonFlexibleIsaCalculator.update_contributions]
      dsimp only [CalcInv] at hinv ⊢
      split_ifs with hpos
      · dsimp only; linarith
      · exact hinv
    | Flexible_ISA =>
      dsimp only [update_contributions, FlexibleIsaCalculator.update_contributions]
      dsimp only [CalcInv] at hinv ⊢
      obtain ⟨h1, h2⟩ := hinv
      split_ifs with hpos
      · dsimp only; constructor <;> linarith
      · dsimp only; constructor <;> linarith
    | Flexible_Lifetime_ISA =>
      dsimp only [update_contributions, FlexibleLifetimeIsaCalculator.update_contributions]
      dsimp only [CalcInv] at hinv ⊢
      obtain ⟨h1, h2, h3⟩ := hinv
      split_ifs with hpos
      · dsimp only
        refine ⟨by linarith, h2, ?_⟩
        rcases le_total t.amount s.remaining_lifetime_isa_allowance with hle | hle
        · rw [min_eq_left hle]; linarith
        · rw [min_eq_right hle]; linarith
      · dsimp only
        refine ⟨by linarith, h2, ?_⟩
        have hm := min_le_right |t.amount|
          (s.INITIAL_LIFETIME_ALLOWANCE - s.remaining_lifetime_isa_allowance)
        have hx := le_max_left (0 : ℚ) (s.balance - s.INITIAL_LIFETIME_ALLOWANCE)
        linarith

theorem calcsInv_step (isa_limits : AccountType → ℚ) (calcs calcs1 : Calculators)
    (t : Transaction) (hinv : CalcsInv calcs)
    (hinit : ∀ cat, CalcInv cat (CalcState.init isa_limits))
    (hs : orchestratorStep isa_limits calcs t = .ok calcs1) : CalcsInv calcs1 := by
  simp only [orchestratorStep] at hs
  cases hp : process_transaction t.account.account_type
      ((calcs t.account.account_type).getD (CalcState.init isa_limits)) t with
  | error e => simp only [hp] at hs; cases hs
  | ok snew =>
    simp only [hp] at hs
    cases hs
    intro c sc hc
    dsimp only at hc
    by_cases hcat : c = t.account.account_type
    · subst hcat
      rw [if_pos rfl] at hc
      cases hc
      have hbase : CalcInv t.account.account_type
          ((calcs t.account.account_type).getD (CalcState.init isa_limits)) := by
        cases hc0 : calcs t.account.account_type with
        | none => simpa [hc0] using hinit t.account.account_type
        | some s0 => simpa [hc0] using hinv t.account.account_type s0 hc0
      exact calcInv_process _ _ _ t hbase hp
    · rw [if_neg hcat] at hc
      exact hinv c sc hc

theorem calcsInv_processAll (isa_limits : AccountType → ℚ) (l : List Transaction)
    (calcs calcs' : Calculators) (hinv : CalcsInv calcs)
    (hinit : ∀ cat, CalcInv cat (CalcState.init isa_limits))
    (h : processAll isa_limits calcs l = .ok calcs') : CalcsInv calcs' := by
  induction l generalizing calcs with
  | nil =>
    simp only [processAll, Except.ok.injEq] at h
    subst h
    exact hinv
  | cons t ts ih =>
    unfold processAll at h
    cases hs : orchestratorStep isa_limits calcs t with
    | error e => rw [hs] at h; cases h
    | ok calcs1 =>
      rw [hs] at h
      exact ih calcs1 (calcsInv_step isa_limits calcs calcs1 t hinv hinit hs) h

theorem totalContributions_nonneg (calcs : Calculators) (hinv : CalcsInv calcs) :
    0 ≤ totalContributions calcs := by
  unfold totalContributions
  have key : ∀ cat, 0 ≤ optTotal (calcs cat) := by
    intro cat
    cases hc : calcs cat with
    | none => simp [optTotal]
    | some s => exact calcInv_total_nonneg cat s (hinv cat s hc)
  have k1 := key .ISA
  have k2 := key .Flexible_ISA
  have k3 := key .Flexible_Lifetime_ISA
  linarith

/-- Claim C4: whenever `calculate_isa_allowance_for_account` returns normally
(every running balance stayed nonnegative, supported year and categories),
the result satisfies `0 ≤ remaining_allowance ≤ annual_allowance`, and
`annual_allowance` is exactly the Standard (`ISA`) category's cap from the
limit table for the tax year. -/
theorem calculate_result_bounds (client_id : Int) (transactions : List Transaction)
    (tax_year : Int) (r : IsaAllowance)
    (h : calculate_isa_allowance_for_account client_id transactions tax_year = .ok r) :
    0 ≤ r.remaining_allowance ∧ r.remaining_allowance ≤ r.annual_allowance ∧
    r.annual_allowance = isaLimits2024 .ISA := by
  by_cases hty : tax_year = 2024
  · subst hty
    rw [calculate_isa_allowance_for_account] at h
    norm_num [get_isa_limits_for_tax_year] at h
    cases hp : processAll isaLimits2024 (fun _ => none)
        (clientTransactionsSorted client_id transactions 2024) with
    | error e => rw [hp] at h; cases h
    | ok calcs =>
      rw [hp] at h
      cases h
      have hinv : CalcsInv calcs :=
        calcsInv_processAll isaLimits2024 _ (fun _ => none) calcs
          (fun cat s hc => by cases hc) calcInv_init hp
      have hT := totalContributions_nonneg calcs hinv
      dsimp only
      refine ⟨le_max_left 0 _, ?_, rfl⟩
      have h20 : (0 : ℚ) ≤ isaLimits2024 .ISA := by norm_num [isaLimits2024]
      exact max_le h20 (by linarith)
  · rw [calculate_isa_allowance_for_account, get_isa_limits_for_tax_year,
      if_neg hty] at h
    cases h

theorem calculate_result_bounds_witness :
    (0 : ℚ) ≤ (IsaAllowance.mk 20000 0).remaining_allowance ∧
    (IsaAllowance.mk 20000 0).remaining_allowance ≤
      (IsaAllowance.mk 20000 0).annual_allowance ∧
    (IsaAllowance.mk 20000 0).annual_allowance = isaLimits2024 .ISA :=
  calculate_result_bounds 1 scenarioA 2024 ⟨20000, 0⟩
    (by norm_num +decide [calculate_isa_allowance_for_account,
      get_isa_limits_for_tax_year, clientTransactionsSorted,
      filter_transactions_by_tax_year_and_client_id, TAX_YEAR_START_DATE,
      TAX_YEAR_END_DATE, PyDate.lt, List.insertionSort, List.orderedInsert, txnDateLe,
      PyDate.le, processAll, orchestratorStep, process_transaction,
      update_contributions, NonFlexibleIsaCalculator.update_contributions,
      CalcState.init, isaLimits2024, totalContributions, optTotal, scenarioA,
      stdAccount, may5])

theorem sameDateFilter_cons (d : PyDate) (a : Transaction) (l : List Transaction) :
    sameDateFilter d (a :: l) =
      if a.transaction_date = d then a :: sameDateFilter d l
      else sameDateFilter d l := by
  by_cases h : a.transaction_date = d
  · simp [sameDateFilter, List.filter_cons, h]
  · simp [sameDateFilter, List.filter_cons, h]

theorem sameDateFilter_orderedInsert (d : PyDate) (a : Transaction)
    (l : List Transaction) :
    sameDateFilter d (List.orderedInsert txnDateLe a l) =
      if a.transaction_date = d then a :: sameDateFilter d l
      else sameDateFilter d l := by
  induction l with
  | nil => rw [List.orderedInsert_nil, sameDateFilter_cons]
  | cons b l ih =>
    rw [List.orderedInsert]
    by_cases hab : txnDateLe a b
    · rw [if_pos hab, sameDateFilter_cons, sameDateFilter_cons]
    · rw [if_neg hab]
      have hba : PyDate.lt b.transaction_date a.transaction_date :=
        PyDate.lt_of_not_le a.transaction_date b.transaction_date hab
      rw [sameDateFilter_cons, ih, sameDateFilter_cons]
      by_cases had : a.transaction_date = d
      · have hbd : b.transaction_date ≠ d := fun hEq =>
          PyDate.ne_of_lt b.transaction_date a.transaction_date hba
            (hEq.trans had.symm)
        rw [if_pos had, if_neg hbd, if_pos had, if_neg hbd]
      · rw [if_neg had, if_neg had]

theorem sameDateFilter_insertionSort (d : PyDate) (l : List Transaction) :
    sameDateFilter d (List.insertionSort txnDateLe l) = sameDateFilter d l := by
  induction l with
  | nil => rfl
  | cons a l ih =>
    rw [List.insertionSort, sameDateFilter_orderedInsert, ih, sameDateFilter_cons]

/-- Claim C6: the filter-and-sort step returns exactly the transactions of the
given client whose date lies strictly between April 6 of the tax year and
April 5 of the following year (membership characterisation, boundary dates
excluded, and a permutation of the exact filtered sublist so multiplicity is
preserved), sorted ascending by date, with same-date ties kept in their
original input order (the sorted list restricted to any single date equals
the filtered input restricted to that date).  The embedding is pure, so the
input list is not mutated: the source builds a fresh list by comprehension
and sorts only that fresh list. -/
theorem filter_sort_spec (client_id : Int) (transactions : List Transaction)
    (tax_year : Int) :
    (∀ t, t ∈ clientTransactionsSorted client_id transactions tax_year ↔
        t ∈ transactions ∧
        PyDate.lt (TAX_YEAR_START_DATE tax_year) t.transaction_date ∧
        PyDate.lt t.transaction_date (TAX_YEAR_END_DATE tax_year) ∧
        t.account.client_id = client_id) ∧
    (∀ t, t.transaction_date = TAX_YEAR_START_DATE tax_year ∨
        t.transaction_date = TAX_YEAR_END_DATE tax_year →
        t ∉ clientTransactionsSorted client_id transactions tax_year) ∧
    (clientTransactionsSorted client_id transactions tax_year).Perm
      (filter_transactions_by_tax_year_and_client_id client_id transactions
        (TAX_YEAR_START_DATE tax_year) (TAX_YEAR_END_DATE tax_year)) ∧
    List.Sorted txnDateLe (clientTransactionsSorted client_id transactions tax_year) ∧
    (∀ d, sameDateFilter d (clientTransactionsSorted client_id transactions tax_year) =
        sameDateFilter d (filter_transactions_by_tax_year_and_client_id client_id
          transactions (TAX_YEAR_START_DATE tax_year) (TAX_YEAR_END_DATE tax_year))) := by
  have hmem : ∀ t, t ∈ clientTransactionsSorted client_id transactions tax_year ↔
      t ∈ transactions ∧
      PyDate.lt (TAX_YEAR_START_DATE tax_year) t.transaction_date ∧
      PyDate.lt t.transaction_date (TAX_YEAR_END_DATE tax_year) ∧
      t.account.client_id = client_id := by
    intro t
    simp [clientTransactionsSorted, filter_transactions_by_tax_year_and_client_id,
      List.mem_filter, decide_eq_true_iff]
  refine ⟨hmem, ?_, ?_, ?_, ?_⟩
  · intro t hd hmemT
    have hin := (hmem t).mp hmemT
    rcases hd with hstart | hend
    · exact PyDate.ne_of_lt (TAX_YEAR_START_DATE tax_year) t.transaction_date
        hin.2.1 hstart.symm
    · exact PyDate.ne_of_lt t.transaction_date (TAX_YEAR_END_DATE tax_year)
        hin.2.2.1 hend
  · exact List.perm_insertionSort txnDateLe _
  · exact List.sorted_insertionSort txnDateLe _
  · intro d
    exact sameDateFilter_insertionSort d _

theorem filter_sort_spec_witness :
    (⟨stdAccount, TAX_YEAR_START_DATE 2024, 100⟩ : Transaction) ∉
      clientTransactionsSorted 1
        [⟨stdAccount, TAX_YEAR_START_DATE 2024, 100⟩] 2024 :=
  (filter_sort_spec 1 [⟨stdAccount, TAX_YEAR_START_DATE 2024, 100⟩] 2024).2.1
    ⟨stdAccount, TAX_YEAR_START_DATE 2024, 100⟩ (Or.inl rfl)

theorem txnDateLt_of_le_of_ne {a b : Transaction} (h : txnDateLe a b)
    (hne : a.transaction_date ≠ b.transaction_date) : txnDateLt a b :=
  PyDate.lt_of_le_of_ne a.transaction_date b.transaction_date h hne

theorem clientTransactionsSorted_perm_eq (client_id : Int) (tax_year : Int)
    (l1 l2 : List Transaction) (hperm : l1.Perm l2)
    (hdates : (filter_transactions_by_tax_year_and_client_id client_id l1
        (TAX_YEAR_START_DATE tax_year) (TAX_YEAR_END_DATE tax_year)).Pairwise
      (fun a b => a.transaction_date ≠ b.transaction_date)) :
    clientTransactionsSorted client_id l1 tax_year =
      clientTransactionsSorted client_id l2 tax_year := by
  have hsymm : ∀ {x y : Transaction}, x.transaction_date ≠ y.transaction_date →
      y.transaction_date ≠ x.transaction_date := fun h => h.symm
  have hfperm := hperm.filter fun txn =>
    decide (PyDate.lt (TAX_YEAR_START_DATE tax_year) txn.transaction_date ∧
      PyDate.lt txn.transaction_date (TAX_YEAR_END_DATE tax_year) ∧
      txn.account.client_id = client_id)
  have hfperm2 : (filter_transactions_by_tax_year_and_client_id client_id l1
      (TAX_YEAR_START_DATE tax_year) (TAX_YEAR_END_DATE tax_year)).Perm
      (filter_transactions_by_tax_year_and_client_id client_id l2
        (TAX_YEAR_START_DATE tax_year) (TAX_YEAR_END_DATE tax_year)) := hfperm
  have hp1 := List.perm_insertionSort txnDateLe
    (filter_transactions_by_tax_year_and_client_id client_id l1
      (TAX_YEAR_START_DATE tax_year) (TAX_YEAR_END_DATE tax_year))
  have hp2 := List.perm_insertionSort txnDateLe
    (filter_transactions_by_tax_year_and_client_id client_id l2
      (TAX_YEAR_START_DATE tax_year) (TAX_YEAR_END_DATE tax_year))
  have hdates2 := (hfperm2.pairwise_iff hsymm).mp hdates
  have hd1 := (hp1.pairwise_iff hsymm).mpr hdates
  have hd2 := (hp2.pairwise_iff hsymm).mpr hdates2
  have hsort1 := List.sorted_insertionSort txnDateLe
    (filter_transactions_by_tax_year_and_client_id client_id l1
      (TAX_YEAR_START_DATE tax_year) (TAX_YEAR_END_DATE tax_year))
  have hsort2 := List.sorted_insertionSort txnDateLe
    (filter_transactions_by_tax_year_and_client_id client_id l2
      (TAX_YEAR_START_DATE tax_year) (TAX_YEAR_END_DATE tax_year))
  have hlt1 : List.Sorted txnDateLt (clientTransactionsSorted client_id l1 tax_year) :=
    (hsort1.and hd1).imp fun h => txnDateLt_of_le_of_ne h.1 h.2
  have hlt2 : List.Sorted txnDateLt (clientTransactionsSorted client_id l2 tax_year) :=
    (hsort2.and hd2).imp fun h => txnDateLt_of_le_of_ne h.1 h.2
  exact List.eq_of_perm_of_sorted (hp1.trans (hfperm2.trans hp2.symm)) hlt1 hlt2

/-- Claim C3, counterexample: the outcome of `calculate` is not invariant
under every permutation of the input list.  With two same-date transactions
on a Standard account — withdraw 100 and contribute 100 — the stable sort
keeps the input order, so one ordering raises `NegativeBalanceError(−100)`
while the permuted ordering succeeds with `remaining_allowance = 19,900`. -/
theorem calculate_not_order_independent :
    ([tieWithdraw, tieContribute] : List Transaction).Perm
      [tieContribute, tieWithdraw] ∧
    calculate_isa_allowance_for_account 1 [tieWithdraw, tieContribute] 2024 =
      .error (.negativeBalance (-100)) ∧
    calculate_isa_allowance_for_account 1 [tieContribute, tieWithdraw] 2024 =
      .ok ⟨20000, 19900⟩ := by
  refine ⟨List.Perm.swap tieContribute tieWithdraw [], ?_, ?_⟩ <;>
    norm_num +decide [calculate_isa_allowance_for_account, get_isa_limits_for_tax_year,
      clientTransactionsSorted, filter_transactions_by_tax_year_and_client_id,
      TAX_YEAR_START_DATE, TAX_YEAR_END_DATE, PyDate.lt, List.insertionSort,
      List.orderedInsert, txnDateLe, PyDate.le, processAll, orchestratorStep,
      process_transaction, update_contributions,
      NonFlexibleIsaCalculator.update_contributions, CalcState.init, isaLimits2024,
      totalContributions, optTotal, tieWithdraw, tieContribute, stdAccount, may5]

/-- Claim C3 (amended): permuting the input transaction list leaves the
outcome of `calculate` unchanged *provided no two transactions that survive
the client/tax-year filter share a date*.  (For same-date ties the stable
sort preserves input order, so a permutation can change the processing order
and hence the outcome — see the counterexample.) -/
theorem calculate_order_independent_distinct_dates (client_id : Int)
    (tax_year : Int) (l1 l2 : List Transaction) (hperm : l1.Perm l2)
    (hdates : (filter_transactions_by_tax_year_and_client_id client_id l1
        (TAX_YEAR_START_DATE tax_year) (TAX_YEAR_END_DATE tax_year)).Pairwise
      (fun a b => a.transaction_date ≠ b.transaction_date)) :
    calculate_isa_allowance_for_account client_id l1 tax_year =
      calculate_isa_allowance_for_account client_id l2 tax_year := by
  unfold calculate_isa_allowance_for_account
  rw [clientTransactionsSorted_perm_eq client_id tax_year l1 l2 hperm hdates]

theorem calculate_order_independent_distinct_dates_witness :
    calculate_isa_allowance_for_account 1 scenarioC 2024 =
      calculate_isa_allowance_for_account 1
        [⟨stdAccount, may6, -10000⟩, ⟨stdAccount, may5, 5000⟩] 2024 := by
  have hperm : scenarioC.Perm
      [⟨stdAccount, may6, -10000⟩, ⟨stdAccount, may5, 5000⟩] := by
    show ([⟨stdAccount, may5, 5000⟩, ⟨stdAccount, may6, -10000⟩] :
      List Transaction).Perm _
    exact List.Perm.swap _ _ []
  exact calculate_order_independent_distinct_dates 1 2024 scenarioC
    [⟨stdAccount, may6, -10000⟩, ⟨stdAccount, may5, 5000⟩] hperm (by decide)

theorem process_transaction_amount_congr (cat : AccountType) (s : CalcState)
    {t1 t2 : Transaction} (h : t1.amount = t2.amount) :
    process_transaction cat s t1 = process_transaction cat s t2 := by
  cases cat <;>
    simp [process_transaction, update_contributions,
      NonFlexibleIsaCalculator.update_contributions,
      FlexibleIsaCalculator.update_contributions,
      FlexibleLifetimeIsaCalculator.update_contributions, h]

theorem orchestratorStep_congr (isa_limits : AccountType → ℚ) (calcs : Calculators)
    {t1 t2 : Transaction} (h : SameView t1 t2) :
    orchestratorStep isa_limits calcs t1 = orchestratorStep isa_limits calcs t2 := by
  obtain ⟨hcid, hcat, hdate, hamt⟩ := h
  simp only [orchestratorStep, hcat, process_transaction_amount_congr _ _ hamt]

theorem processAll_congr (isa_limits : AccountType → ℚ) (calcs : Calculators)
    {l1 l2 : List Transaction} (h : List.Forall₂ SameView l1 l2) :
    processAll isa_limits calcs l1 = processAll isa_limits calcs l2 := by
  induction h generalizing calcs with
  | nil => rfl
  | cons hab hrest ih =>
    simp only [processAll]
    rw [orchestratorStep_congr isa_limits calcs hab]
    cases orchestratorStep isa_limits calcs _ with
    | error e => rfl
    | ok calcs1 => exact ih calcs1

theorem filter_congr_sameView (client_id : Int) (S E : PyDate)
    {l1 l2 : List Transaction} (h : List.Forall₂ SameView l1 l2) :
    List.Forall₂ SameView
      (filter_transactions_by_tax_year_and_client_id client_id l1 S E)
      (filter_transactions_by_tax_year_and_client_id client_id l2 S E) := by
  induction h with
  | nil => constructor
  | @cons a b la lb hab hrest ih =>
    obtain ⟨hcid, hcat, hdate, hamt⟩ := hab
    unfold filter_transactions_by_tax_year_and_client_id at ih ⊢
    simp only [List.filter_cons]
    have hpred : decide (PyDate.lt S a.transaction_date ∧
        PyDate.lt a.transaction_date E ∧ a.account.client_id = client_id) =
      decide (PyDate.lt S b.transaction_date ∧
        PyDate.lt b.transaction_date E ∧ b.account.client_id = client_id) := by
      rw [hdate, hcid]
    rw [← hpred]
    split_ifs with hcond
    · exact List.Forall₂.cons ⟨hcid, hcat, hdate, hamt⟩ ih
    · exact ih

theorem orderedInsert_congr_sameView {a b : Transaction}
    {l1 l2 : List Transaction} (hab : SameView a b)
    (h : List.Forall₂ SameView l1 l2) :
    List.Forall₂ SameView (List.orderedInsert txnDateLe a l1)
      (List.orderedInsert txnDateLe b l2) := by
  induction h with
  | nil => exact List.Forall₂.cons hab List.Forall₂.nil
  | @cons x y la lb hxy hrest ih =>
    rw [List.orderedInsert, List.orderedInsert]
    have hcond : txnDateLe a x ↔ txnDateLe b y := by
      unfold txnDateLe
      rw [hab.2.2.1, hxy.2.2.1]
    by_cases hc : txnDateLe a x
    · rw [if_pos hc, if_pos (hcond.mp hc)]
      exact List.Forall₂.cons hab (List.Forall₂.cons hxy hrest)
    · rw [if_neg hc, if_neg fun hcb => hc (hcond.mpr hcb)]
      exact List.Forall₂.cons hxy ih

theorem insertionSort_congr_sameView {l1 l2 : List Transaction}
    (h : List.Forall₂ SameView l1 l2) :
    List.Forall₂ SameView (List.insertionSort txnDateLe l1)
      (List.insertionSort txnDateLe l2) := by
  induction h with
  | nil => constructor
  | cons hab hrest ih =>
    rw [List.insertionSort, List.insertionSort]
    exact orderedInsert_congr_sameView hab ih

/-- Claim C10: calculator state is keyed by account category, not by
account: the outcome of `calculate` depends on each transaction only through
its owning client, account category, date and amount — the `account.id` is
never read, so all same-category transactions of a client (even from
distinct accounts) drive one shared state.  In particular, in the concrete
instance a withdrawal of 3,000 from an account that never received a deposit
raises no `NegativeBalanceError`, because another same-category account's
5,000 contribution keeps the shared category balance nonnegative, and the
call returns `remaining_allowance = 15,000`. -/
theorem calculators_keyed_by_category (client_id : Int) (tax_year : Int)
    (l1 l2 : List Transaction) (h : List.Forall₂ SameView l1 l2) :
    calculate_isa_allowance_for_account client_id l1 tax_year =
        calculate_isa_allowance_for_account client_id l2 tax_year ∧
    calculate_isa_allowance_for_account 7 crossAccountTxns 2024 =
      .ok ⟨20000, 15000⟩ := by
  constructor
  · have hsorted := insertionSort_congr_sameView
      (filter_congr_sameView client_id (TAX_YEAR_START_DATE tax_year)
        (TAX_YEAR_END_DATE tax_year) h)
    by_cases hty : tax_year = 2024
    · subst hty
      rw [calculate_isa_allowance_for_account,
        calculate_isa_allowance_for_account]
      norm_num [get_isa_limits_for_tax_year]
      have hpa : processAll isaLimits2024 (fun _ => none)
          (clientTransactionsSorted client_id l1 2024) =
        processAll isaLimits2024 (fun _ => none)
          (clientTransactionsSorted client_id l2 2024) :=
        processAll_congr isaLimits2024 (fun _ => none) hsorted
      rw [hpa]
    · simp [calculate_isa_allowance_for_account, get_isa_limits_for_tax_year, hty]
  · norm_num +decide [calculate_isa_allowance_for_account,
      get_isa_limits_for_tax_year, clientTransactionsSorted,
      filter_transactions_by_tax_year_and_client_id, TAX_YEAR_START_DATE,
      TAX_YEAR_END_DATE, PyDate.lt, List.insertionSort, List.orderedInsert, txnDateLe,
      PyDate.le, processAll, orchestratorStep, process_transaction,
      update_contributions, NonFlexibleIsaCalculator.update_contributions,
      CalcState.init, isaLimits2024, totalContributions, optTotal, crossAccountTxns,
      accountA7, accountB7, may5, may6]

theorem calculators_keyed_by_category_witness :
    (calculate_isa_allowance_for_account 7 crossAccountTxns 2024 =
        calculate_isa_allowance_for_account 7
          [⟨⟨9, 7, .ISA⟩, may5, 5000⟩, ⟨⟨9, 7, .ISA⟩, may6, -3000⟩] 2024) ∧
    calculate_isa_allowance_for_account 7 crossAccountTxns 2024 =
      .ok ⟨20000, 15000⟩ := by
  have hview : List.Forall₂ SameView crossAccountTxns
      [⟨⟨9, 7, .ISA⟩, may5, 5000⟩, ⟨⟨9, 7, .ISA⟩, may6, -3000⟩] := by
    show List.Forall₂ SameView
      [⟨accountA7, may5, 5000⟩, ⟨accountB7, may6, -3000⟩] _
    exact List.Forall₂.cons ⟨rfl, rfl, rfl, rfl⟩
      (List.Forall₂.cons ⟨rfl, rfl, rfl, rfl⟩ List.Forall₂.nil)
  exact calculators_keyed_by_category 7 2024 crossAccountTxns
    [⟨⟨9, 7, .ISA⟩, may5, 5000⟩, ⟨⟨9, 7, .ISA⟩, may6, -3000⟩] hview
